import Mathlib

/-!
Verification development for the local code-review agent.

The definitions below are a shallow embedding of the core of the repository:
the safety gate (`tools/linter.py`), the sandboxed executor
(`tools/executor.py`), the resilient response parser and the retry state
machine (`agents/graph.py`), and the configuration defaults
(`config.py`).  Python strings are modelled by `String` (viewed as lists
of characters), Python floats that only ever carry measured wall-clock
times by `ℚ`, fallible operations by `Option`, and the external
collaborators (the LLM service, the subprocess runner, `json.loads`,
pydantic validation) by explicit oracle parameters.  Regular-expression
searches for the concrete patterns appearing in the source are
implemented character by character; the word classes follow the ASCII
reading of the Python classes `\w` and `\s`.
-/

namespace CodeReviewAgent

/-! ## Character classes and literal-pattern scanning -/

/-- ASCII reading of the regex word class `\w`: letters, digits, underscore. -/
def isWordChar (c : Char) : Bool := c.isAlphanum || c == '_'

/-- ASCII reading of the regex whitespace class `\s`:
space, tab, newline, carriage return, vertical tab, form feed. -/
def isPySpace (c : Char) : Bool :=
  c == ' ' || c == '\t' || c == '\n' || c == '\r' || c == Char.ofNat 11 || c == Char.ofNat 12

/-- Drop `\s*`: the longest run of whitespace characters. -/
def dropPySpaces (s : List Char) : List Char := s.dropWhile isPySpace

/-- Python `str.strip()`: remove leading and trailing whitespace. -/
def pyStrip (s : String) : String :=
  String.mk (((s.data.dropWhile isPySpace).reverse.dropWhile isPySpace).reverse)

/-- Match a literal character sequence at the front, returning the rest. -/
def matchLit : List Char → List Char → Option (List Char)
  | [], s => some s
  | _ :: _, [] => none
  | p :: ps, c :: cs => if p == c then matchLit ps cs else none

/-- Case-insensitive variant of `matchLit` (for `re.IGNORECASE` patterns). -/
def matchLitCI : List Char → List Char → Option (List Char)
  | [], s => some s
  | _ :: _, [] => none
  | p :: ps, c :: cs => if p.toLower == c.toLower then matchLitCI ps cs else none

/-- Match `\s+`: at least one whitespace character, then any further run. -/
def skipSpaces1 (s : List Char) : Option (List Char) :=
  match s with
  | c :: cs => if isPySpace c then some (dropPySpaces cs) else none
  | [] => none

/-- Scan a text, testing predicate `p` at every position; `p` receives the
character just before the position (for word boundaries) and the suffix. -/
def scanFound (p : Option Char → List Char → Bool) : Option Char → List Char → Bool
  | prev, [] => p prev []
  | prev, c :: cs => p prev (c :: cs) || scanFound p (some c) cs

/-- Run a position predicate over a whole string (regex `re.search`). -/
def textMatch (p : Option Char → List Char → Bool) (code : String) : Bool :=
  scanFound p none code.data

/-- Word boundary `\b` immediately before a word character: the previous
character, if any, is not a word character. -/
def boundaryBefore (prev : Option Char) : Bool :=
  match prev with
  | none => true
  | some c => !isWordChar c

/-- Word boundary `\b` immediately after a word character: the next
character, if any, is not a word character.  (All denylisted module names
consist of word characters, so this is the relevant case of `\b`.) -/
def boundaryAfter (rest : List Char) : Bool :=
  match rest with
  | [] => true
  | c :: _ => !isWordChar c

/-! ## The regex patterns of `check_code_safety` (`tools/linter.py`) -/

/-- Position test for `\bimport\s+MOD\b`. -/
def importAt (m : List Char) (prev : Option Char) (s : List Char) : Bool :=
  boundaryBefore prev &&
  (match matchLit ("import".data) s with
   | some r1 =>
     match skipSpaces1 r1 with
     | some r2 =>
       match matchLit m r2 with
       | some r3 => boundaryAfter r3
       | none => false
     | none => false
   | none => false)

/-- Position test for `\bfrom\s+MOD\b`. -/
def fromAt (m : List Char) (prev : Option Char) (s : List Char) : Bool :=
  boundaryBefore prev &&
  (match matchLit ("from".data) s with
   | some r1 =>
     match skipSpaces1 r1 with
     | some r2 =>
       match matchLit m r2 with
       | some r3 => boundaryAfter r3
       | none => false
     | none => false
   | none => false)

/-- Position test for the dynamic-import pattern: the literal
`__import__`, optional whitespace, an opening parenthesis, optional
whitespace, a quote character, then MOD (no trailing boundary,
exactly as in the source pattern). -/
def dunderImportAt (m : List Char) (_prev : Option Char) (s : List Char) : Bool :=
  match matchLit ("__import__".data) s with
  | some r1 =>
    match dropPySpaces r1 with
    | c :: r2 =>
      if c == '(' then
        match dropPySpaces r2 with
        | q :: r3 => (q == Char.ofNat 34 || q == Char.ofNat 39) && (matchLit m r3).isSome
        | [] => false
      else false
    | [] => false
  | none => false

/-- Position test for `\bNAME\s*\(` (the dynamic-evaluation builtins). -/
def builtinCallAt (nm : List Char) (prev : Option Char) (s : List Char) : Bool :=
  boundaryBefore prev &&
  (match matchLit nm s with
   | some r1 =>
     match dropPySpaces r1 with
     | c :: _ => c == '('
     | [] => false
   | none => false)

/-- Whole-text search: does the raw source refer to module `m` by any of
the three textual patterns of the regex pass? -/
def textModuleHit (m : String) (code : String) : Bool :=
  textMatch (importAt m.data) code ||
  textMatch (fromAt m.data) code ||
  textMatch (dunderImportAt m.data) code

/-! ## The safety gate (`check_code_safety`) -/

/-- Python snippets as the gate sees them: the statements that `ast.walk`
would visit.  Only the node shapes the gate inspects are distinguished;
everything else is `other`.  A dynamic import records the literal first
argument of a `__import__` call when it is a constant. -/
inductive PyStmt where
  | importStmt (names : List String)
  | importFrom (module : Option String)
  | callDunderImport (arg : Option String)
  | other
deriving DecidableEq

/-- A piece of Python source: its raw text together with the outcome of
`ast.parse` (`none` models a `SyntaxError`). -/
structure PyCode where
  text : String
  ast : Option (List PyStmt)
deriving DecidableEq

/-- Root of a dotted module path, as computed by the source via
`split` on dots and taking the first piece (the characters before the
first dot). -/
def rootModule (s : String) : String := String.mk (s.data.takeWhile (fun c => c != '.'))

/-- Blocked roots contributed by one walked node (AST pass of the gate).
Appends are unconditional, exactly as in the source, so duplicates from
repeated imports are kept. -/
def stmtBlockedRoots (blocked : List String) : PyStmt → List String
  | .importStmt names => (names.map rootModule).filter (fun r => decide (r ∈ blocked))
  | .importFrom (some m) =>
    let r := rootModule m
    if r ∈ blocked then [r] else []
  | .importFrom none => []
  | .callDunderImport (some a) =>
    let r := rootModule a
    if r ∈ blocked then [r] else []
  | .callDunderImport none => []
  | .other => []

/-- Step 1 of the gate: the AST walk collecting blocked roots. -/
def astPass (blocked : List String) : List PyStmt → List String
  | [] => []
  | stmt :: rest => stmtBlockedRoots blocked stmt ++ astPass blocked rest

/-- Step 2 of the gate: the textual backup pass, appending each blocked
module whose patterns match the raw text and which was not already found.
The Python source iterates over a `set`; the iteration order is modelled
by the configured list order (only membership matters to the claims). -/
def regexPass (code : String) : List String → List String → List String
  | [], found => found
  | m :: rest, found =>
    regexPass code rest
      (if textModuleHit m code && !(decide (m ∈ found)) then found ++ [m] else found)

/-- Step 3 of the gate: the dangerous-builtin patterns, in source order. -/
def dangerousPatterns : List (String × String) :=
  [("eval", "eval() is not allowed"),
   ("exec", "exec() is not allowed"),
   ("compile", "compile() is not allowed")]

/-- First dangerous-builtin reason whose pattern matches the raw text. -/
def findDangerousReason (code : String) : Option String :=
  (dangerousPatterns.find? (fun p => textMatch (builtinCallAt p.1.data) code)).map
    (fun p => p.2)

/-- Verdict record returned by `check_code_safety`. -/
structure SafetyVerdict where
  safe : Bool
  reason : Option String
  blocked_imports : List String
deriving DecidableEq

/-- The `found_blocked` list after both detection passes: the AST pass
runs when the code parses (a `SyntaxError` is swallowed), the textual
pass always runs on top of it. -/
def gateFound (blocked : List String) (code : PyCode) : List String :=
  regexPass code.text blocked
    (match code.ast with
     | some stmts => astPass blocked stmts
     | none => [])

/-- The safety gate `check_code_safety` of `tools/linter.py`: AST pass
when the code parses, textual pass always, then the dangerous-builtin
short circuit, then the blocked-import verdict. -/
def check_code_safety (blocked : List String) (code : PyCode) : SafetyVerdict :=
  let found := gateFound blocked code
  match findDangerousReason code.text with
  | some reason => ⟨false, some reason, found⟩
  | none =>
    if found.isEmpty then ⟨true, none, []⟩
    else ⟨false, some ("Blocked import(s) detected: " ++ String.intercalate ", " found), found⟩

/-! ## The sandboxed executor (`execute_code_safely`, `tools/executor.py`) -/

/-- Structured result of one execution attempt (`models/schemas.py`). -/
structure ExecutionResult where
  success : Bool
  output : Option String
  error : Option String
  execution_time : ℚ
  blocked_import_detected : Bool
deriving DecidableEq

/-- What the child process would do if spawned: normal completion with an
exit code and captured streams, a timeout kill, or a spawn/IO failure
(the broad `except Exception` branch).  Elapsed wall-clock times are
carried by the oracle. -/
inductive SubprocessOutcome where
  | completed (returncode : Int) (stdout stderr : String) (elapsed : ℚ)
  | timedOut (elapsed : ℚ)
  | spawnFailed (message : String) (elapsed : ℚ)

/-- Mapping of the captured stdout stream: an empty capture becomes
empty output, anything else is stripped. -/
def stdoutField (s : String) : Option String :=
  if s == "" then none else some (pyStrip s)

/-- Mapping of the captured stderr stream: an empty capture becomes the
fixed message Unknown error, anything else is stripped. -/
def stderrField (s : String) : Option String :=
  if s == "" then some "Unknown error" else some (pyStrip s)

/-- The executor `execute_code_safely`.  The second component of the
result records whether the function reached the subprocess phase
(`true`) or returned at the safety gate without spawning a child process
(`false`). -/
def execute_code_safely (blocked : List String) (timeoutSeconds : Nat)
    (code : PyCode) (run : SubprocessOutcome) : ExecutionResult × Bool :=
  let sr := check_code_safety blocked code
  if sr.safe then
    match run with
    | .completed rc out err t =>
      if rc == 0 then (⟨true, stdoutField out, none, t, false⟩, true)
      else (⟨false, stdoutField out, stderrField err, t, false⟩, true)
    | .timedOut t =>
      (⟨false, none,
        some ("Execution timed out after " ++ toString timeoutSeconds ++ " seconds"),
        t, false⟩, true)
    | .spawnFailed m t =>
      (⟨false, none, some ("Execution failed: " ++ m), t, false⟩, true)
  else
    (⟨false, none, some ("Security Error: " ++ sr.reason.getD ""), 0, true⟩, false)

/-! ## Configuration defaults (`config.py`) -/

/-- The configuration fields the core reads (`config.py`); the LLM and UI
settings do not influence the verified components. -/
structure Config where
  max_retries : Nat
  execution_timeout : Nat
  blocked_imports : List String

/-- The defaults of `Config` in `config.py`. -/
def defaultConfig : Config :=
  ⟨3, 10,
   ["os", "sys", "subprocess", "shutil", "socket", "requests", "urllib", "http",
    "ftplib", "telnetlib", "smtplib", "poplib", "imaplib", "pickle", "shelve",
    "marshal", "builtins", "__builtins__", "importlib", "ctypes", "multiprocessing"]⟩

/-! ## The response parser (`parse_json_response`, `agents/graph.py`)

The external libraries are modelled as oracle parameters: `loads` stands
for `json.loads` (returning `none` on `JSONDecodeError`) and
`validateRecord` stands for
`model_class(**_adapt_response_to_schema(data, model_class)).model_dump()`
with any exception mapped to `none`; both are swallowed by the
`try_parse_and_validate` helper exactly as in the source.  The candidate
extraction (code fences, brace spans, thinking tags, duplicate-key
repair) is implemented concretely below. -/

/-- Prefix test mirroring the duplicate-key regex of the source: the
key a line declares, when the line starts with optional whitespace, a
double quote, word characters, a double quote and a colon. -/
def keyOfLine (line : String) : Option String :=
  match dropPySpaces line.data with
  | c :: rest =>
    if c == Char.ofNat 34 then
      let ws := rest.takeWhile isWordChar
      match ws, rest.drop ws.length with
      | [], _ => none
      | _ :: _, q :: r2 =>
        if q == Char.ofNat 34 then
          match r2 with
          | c2 :: _ => if c2 == ':' then some (String.mk ws) else none
          | [] => none
        else none
      | _ :: _, [] => none
    else none
  | [] => none

/-- One pass of `_fix_duplicate_keys_json`: drop a line whose key is
repeated by the immediately following line (last write wins). -/
def fixDupAux : List String → List String
  | [] => []
  | [l] => [l]
  | l1 :: l2 :: rest =>
    match keyOfLine l1, keyOfLine l2 with
    | some k1, some k2 =>
      if k1 == k2 then fixDupAux (l2 :: rest) else l1 :: fixDupAux (l2 :: rest)
    | _, _ => l1 :: fixDupAux (l2 :: rest)

/-- The duplicate-key repair: split on newlines, drop duplicated
consecutive keys, rejoin. -/
def fixDuplicateKeysJson (s : String) : String :=
  String.intercalate "\n" (fixDupAux (s.splitOn "\n"))

/-- The backtick character. -/
def backtick : Char := Char.ofNat 96

/-- A triple-backtick fence. -/
def fence3 : List Char := [backtick, backtick, backtick]

/-- Scan for the closing delimiter (case-insensitively), returning the
content before it and the text after it. -/
def findCloseCI (close : List Char) : List Char → Option (List Char × List Char)
  | [] => none
  | c :: cs =>
    match matchLitCI close (c :: cs) with
    | some rest => some ([], rest)
    | none =>
      match findCloseCI close cs with
      | some (content, rest) => some (c :: content, rest)
      | none => none

/-- Non-overlapping leftmost matches of a fenced-block pattern
`OPEN\s*([\s\S]*?)CLOSE` (with `re.IGNORECASE`), as `re.findall` returns
them.  `skipWs` reflects the `\s*` after the opening tag; the fuel is the
text length, which bounds the number of scanning steps. -/
def fencedAux (fuel : Nat) (openTag : List Char) (skipWs : Bool) (close : List Char)
    (s : List Char) : List (List Char) :=
  match fuel with
  | 0 => []
  | fuel + 1 =>
    match s with
    | [] => []
    | c :: cs =>
      match matchLitCI openTag (c :: cs) with
      | some r1 =>
        let r2 := if skipWs then dropPySpaces r1 else r1
        match findCloseCI close r2 with
        | some (content, rest) => content :: fencedAux fuel openTag skipWs close rest
        | none => fencedAux fuel openTag skipWs close cs
      | none => fencedAux fuel openTag skipWs close cs

/-- All fenced-block contents for one pattern over a string. -/
def fencedMatches (openTag : List Char) (skipWs : Bool) (close : List Char)
    (s : String) : List String :=
  (fencedAux (s.length + 1) openTag skipWs close s.data).map String.mk

/-- The opening brace character. -/
def lbraceChar : Char := Char.ofNat 123

/-- The closing brace character. -/
def rbraceChar : Char := Char.ofNat 125

/-- Strategy 3: the substring from the first opening brace to the last
closing brace, when the latter comes after the former. -/
def braceCandidate (s : String) : Option String :=
  match s.data.findIdx? (fun c => c == lbraceChar),
        (s.data.reverse.findIdx? (fun c => c == rbraceChar)).map
          (fun j => s.data.length - 1 - j) with
  | some i, some j =>
    if i < j then some (String.mk ((s.data.drop i).take (j - i + 1))) else none
  | _, _ => none

/-- Substitution of one thinking-tag pair by the empty string,
case-insensitively, removing non-overlapping leftmost minimal regions
exactly as the re.sub call of the source does. -/
def stripTagAux (fuel : Nat) (openT closeT : List Char) (s : List Char) : List Char :=
  match fuel with
  | 0 => s
  | fuel + 1 =>
    match s with
    | [] => []
    | c :: cs =>
      match matchLitCI openT (c :: cs) with
      | some r1 =>
        match findCloseCI closeT r1 with
        | some (_, rest) => stripTagAux fuel openT closeT rest
        | none => c :: stripTagAux fuel openT closeT cs
      | none => c :: stripTagAux fuel openT closeT cs

/-- Remove every delimited region of one thinking-tag pair. -/
def stripTag (openT closeT : String) (s : String) : String :=
  String.mk (stripTagAux (s.length + 1) openT.data closeT.data s.data)

/-- Strategy 4 preprocessing: strip the three thinking-tag pairs, in the
order the source lists them. -/
def stripThinkTags (s : String) : String :=
  stripTag "<reasoning>" "</reasoning>"
    (stripTag "<thinking>" "</thinking>" (stripTag "<think>" "</think>" s))

/-- Helper try_parse_and_validate: decode, adapt, validate; every failure is
swallowed and reported as `none`. -/
def try_parse_and_validate {J R : Type} (loads : String → Option J)
    (validateRecord : J → Option R) (s : String) : Option R :=
  match loads s with
  | some data => validateRecord data
  | none => none

/-- First candidate accepted by a parsing function (the early-return
cascade of the source). -/
def firstValid {R : Type} (f : String → Option R) : List String → Option R
  | [] => none
  | s :: rest =>
    match f s with
    | some r => some r
    | none => firstValid f rest

/-- The candidate strings `parse_json_response` tries, in order:
the cleaned response itself; the contents of every fenced block of the
three fence patterns, stripped; the first-to-last brace span; and, when
stripping thinking tags changes the text, the stripped text and its
brace span. -/
def parseCandidates (cleaned : String) : List String :=
  let fenceCands :=
    (fencedMatches (fence3 ++ "json".data) true fence3 cleaned ++
     fencedMatches fence3 true fence3 cleaned ++
     fencedMatches [backtick] false [backtick] cleaned).map pyStrip
  let braceCands := (braceCandidate cleaned).toList
  let stripped := stripThinkTags cleaned
  let strat4 :=
    if stripped ≠ cleaned then
      let s2 := pyStrip stripped
      [s2] ++ (braceCandidate s2).toList
    else []
  [cleaned] ++ fenceCands ++ braceCands ++ strat4

/-- Parser entry parse_json_response: strip the raw response, repair duplicate keys,
then run the recovery strategies in order, stopping at the first
candidate that decodes and validates. -/
def parse_json_response {J R : Type} (loads : String → Option J)
    (validateRecord : J → Option R) (response : String) : Option R :=
  firstValid (try_parse_and_validate loads validateRecord)
    (parseCandidates (fixDuplicateKeysJson (pyStrip response)))

/-! ## The retry state machine (`agents/graph.py`)

The LangGraph nodes are state transformers; the LLM is abstracted by
per-cycle oracle data (what the fix response parsed to, what the raw-text
code extraction salvaged) and the subprocess by a `SubprocessOutcome`.
The graph wiring of `create_agent_graph` is: entry `review`, then the
unconditional edges review→fix, fix→execute, execute→evaluate, and after
`evaluate` the conditional edge given by `should_continue`. -/

/-- The run state (`AgentState` of `models/schemas.py`), restricted to
the fields read by the transition functions; `review`, `fixed_code` and
`messages` only feed prompts and the UI.  `status` is a string, as in
the `TypedDict`. -/
structure AgentState where
  original_code : String
  current_code : String
  attempt : Nat
  parse_failures : Nat
  error_history : List String
  status : String
  execution_result : Option ExecutionResult
deriving DecidableEq

/-- The initial state built by `run_agent`. -/
def initial_state (code : String) : AgentState :=
  ⟨code, code, 0, 0, [], "reviewing", none⟩

/-- Node review_node: only the parse-failure counter and the status matter
to the loop; `parseOk` tells whether the review response parsed. -/
def review_node (parseOk : Bool) (s : AgentState) : AgentState :=
  { s with
    status := "reviewing",
    parse_failures := if parseOk then s.parse_failures else s.parse_failures + 1 }

/-- Node fix_node: `parsedCode` is the `code` field of a successfully parsed
`FixedCode` response, `extracted` the salvage result of
`_extract_code_from_response` (never the empty string in the source, but
the truthiness test is modelled faithfully).  After updating the code and
the counter, the parse-failure budget `2 × max_retries` is checked. -/
def fix_node (cfg : Config) (parsedCode : Option String) (extracted : Option String)
    (s : AgentState) : AgentState :=
  let pf := match parsedCode with
    | some _ => s.parse_failures
    | none => s.parse_failures + 1
  let newCode := match parsedCode with
    | some c => c
    | none =>
      match extracted with
      | some c => if c ≠ "" ∧ c ≠ s.current_code then c else s.current_code
      | none => s.current_code
  if cfg.max_retries * 2 ≤ pf then
    { s with current_code := newCode, parse_failures := pf, status := "failed" }
  else
    { s with current_code := newCode, parse_failures := pf, status := "fixing" }

/-- Node execute_node: run the current code through the sandboxed executor,
append the error to the history when the run failed with a non-empty
error, and set the status. -/
def execute_node (cfg : Config) (astCurrent : Option (List PyStmt))
    (run : SubprocessOutcome) (s : AgentState) : AgentState :=
  let result := (execute_code_safely cfg.blocked_imports cfg.execution_timeout
    ⟨s.current_code, astCurrent⟩ run).1
  let eh := match result.error with
    | some e =>
      if result.success = false ∧ e ≠ "" then s.error_history ++ [e] else s.error_history
    | none => s.error_history
  { s with execution_result := some result, error_history := eh, status := "executing" }

/-- Truthiness of `result and result.success` in `evaluate_node`. -/
def resultSuccess (s : AgentState) : Bool :=
  match s.execution_result with
  | some r => r.success
  | none => false

/-- Node evaluate_node: success ends the run; otherwise the attempt counter
is incremented, the stuck-loop guard (parse failures, more than one
attempt, code never changed) and the retry budget are checked in that
order. -/
def evaluate_node (cfg : Config) (s : AgentState) : AgentState :=
  if resultSuccess s then
    { s with status := "success" }
  else
    let na := s.attempt + 1
    if 0 < s.parse_failures ∧ 1 < na ∧ s.current_code = s.original_code then
      { s with attempt := na, status := "failed" }
    else if cfg.max_retries ≤ na then
      { s with attempt := na, status := "failed" }
    else
      { s with attempt := na, status := "fixing" }

/-- Routing function should_continue: the conditional edge after evaluate. -/
def should_continue (s : AgentState) : String :=
  if s.status = "success" ∨ s.status = "failed" then "end" else "fix"

/-- Oracle data consumed by one fix→execute→evaluate cycle: the LLM fix
response (parsed code, salvage extraction), the structural parse of the
code the executor will receive, and the subprocess behaviour. -/
structure CycleOracle where
  fixParsed : Option String
  fixExtracted : Option String
  astCurrent : Option (List PyStmt)
  run : SubprocessOutcome

/-- One full fix→execute→evaluate cycle of the graph. -/
def runStep (cfg : Config) (cy : CycleOracle) (s : AgentState) : AgentState :=
  evaluate_node cfg
    (execute_node cfg cy.astCurrent cy.run
      (fix_node cfg cy.fixParsed cy.fixExtracted s))

/-- The state after `n` cycles of the loop, starting from the reviewed
state; once `should_continue` says `end`, the state no longer changes. -/
def runCycles (cfg : Config) (orc : Nat → CycleOracle) (s0 : AgentState) : Nat → AgentState
  | 0 => s0
  | n + 1 =>
    let s := runCycles cfg orc s0 n
    if should_continue s = "end" then s else runStep cfg (orc n) s

/-- The state observed right after the `fix` node of cycle `n`. -/
def fixState (cfg : Config) (orc : Nat → CycleOracle) (s0 : AgentState) (n : Nat) :
    AgentState :=
  fix_node cfg (orc n).fixParsed (orc n).fixExtracted (runCycles cfg orc s0 n)

/-- The state observed right after the `execute` node of cycle `n`. -/
def execState (cfg : Config) (orc : Nat → CycleOracle) (s0 : AgentState) (n : Nat) :
    AgentState :=
  execute_node cfg (orc n).astCurrent (orc n).run (fixState cfg orc s0 n)

/-- The state observed right after the `evaluate` node of cycle `n`. -/
def evalState (cfg : Config) (orc : Nat → CycleOracle) (s0 : AgentState) (n : Nat) :
    AgentState :=
  evaluate_node cfg (execState cfg orc s0 n)

/-- The state machine starts with the initial state built by run_agent
followed by the entry node review. -/
def startState (reviewParseOk : Bool) (code : String) : AgentState :=
  review_node reviewParseOk (initial_state code)

/-- The six status values named by the specification. -/
def statusEnum : List String :=
  ["reviewing", "fixing", "executing", "evaluating", "success", "failed"]

/-! ## Lemmas about the safety gate -/

/-- A statement references denylisted module root `r` in one of the three
forms the gate inspects: a plain import, a `from`-import, or a
dynamic import by a literal module name. -/
inductive RefsBlockedModule (blocked : List String) (r : String) : PyStmt → Prop
  | plainImport (names : List String) (n : String) (hn : n ∈ names)
      (hr : rootModule n = r) (hb : r ∈ blocked) :
      RefsBlockedModule blocked r (.importStmt names)
  | fromImport (m : String) (hr : rootModule m = r) (hb : r ∈ blocked) :
      RefsBlockedModule blocked r (.importFrom (some m))
  | dynImport (a : String) (hr : rootModule a = r) (hb : r ∈ blocked) :
      RefsBlockedModule blocked r (.callDunderImport (some a))

theorem refs_mem_roots {blocked : List String} {r : String} {stmt : PyStmt}
    (h : RefsBlockedModule blocked r stmt) : r ∈ stmtBlockedRoots blocked stmt := by
  cases h with
  | plainImport names n hn hr hb =>
    simp only [stmtBlockedRoots, List.mem_filter, List.mem_map, decide_eq_true_eq]
    exact ⟨⟨n, hn, hr⟩, hb⟩
  | fromImport m hr hb =>
    simp only [stmtBlockedRoots]
    rw [hr, if_pos hb]
    simp
  | dynImport a hr hb =>
    simp only [stmtBlockedRoots]
    rw [hr, if_pos hb]
    simp

theorem mem_astPass {blocked : List String} {r : String} {stmt : PyStmt}
    {stmts : List PyStmt} (hstmt : stmt ∈ stmts)
    (h : r ∈ stmtBlockedRoots blocked stmt) : r ∈ astPass blocked stmts := by
  induction stmts with
  | nil => cases hstmt
  | cons a t ih =>
    rcases List.mem_cons.mp hstmt with rfl | hmem
    · exact List.mem_append_left _ h
    · exact List.mem_append_right _ (ih hmem)

theorem regexPass_mono {x : String} (code : String) :
    ∀ (bl found : List String), x ∈ found → x ∈ regexPass code bl found := by
  intro bl
  induction bl with
  | nil => intro found h; exact h
  | cons m rest ih =>
    intro found h
    simp only [regexPass]
    apply ih
    split
    · exact List.mem_append_left _ h
    · exact h

theorem regexPass_hit {m : String} (code : String)
    (hmatch : textModuleHit m code = true) :
    ∀ (bl found : List String), m ∈ bl → m ∈ regexPass code bl found := by
  intro bl
  induction bl with
  | nil => intro found h; cases h
  | cons b rest ih =>
    intro found hb
    rcases List.mem_cons.mp hb with rfl | hmem
    · simp only [regexPass]
      by_cases hin : m ∈ found
      · exact regexPass_mono code rest _ (by split <;> [exact List.mem_append_left _ hin; exact hin])
      · have : (if textModuleHit m code && !(decide (m ∈ found)) then found ++ [m] else found)
            = found ++ [m] := by
          rw [if_pos]
          simp [hmatch, hin]
        rw [this]
        exact regexPass_mono code rest _ (by simp)
    · simp only [regexPass]
      exact ih _ hmem

theorem gate_rejects_of_mem {blocked : List String} {code : PyCode} {r : String}
    (h : r ∈ gateFound blocked code) :
    (check_code_safety blocked code).safe = false ∧
    r ∈ (check_code_safety blocked code).blocked_imports := by
  cases hd : findDangerousReason code.text with
  | some reason =>
    have hcheck : check_code_safety blocked code =
        ⟨false, some reason, gateFound blocked code⟩ := by
      unfold check_code_safety
      rw [hd]
    rw [hcheck]
    exact ⟨rfl, h⟩
  | none =>
    have hne : (gateFound blocked code).isEmpty = false := by
      cases hl : gateFound blocked code with
      | nil => rw [hl] at h; cases h
      | cons a t => rfl
    have hcheck : check_code_safety blocked code =
        ⟨false, some ("Blocked import(s) detected: " ++
          String.intercalate ", " (gateFound blocked code)), gateFound blocked code⟩ := by
      unfold check_code_safety
      rw [hd]
      simp [hne]
    rw [hcheck]
    exact ⟨rfl, h⟩

theorem execute_gate_blocked {blocked : List String} (timeoutSeconds : Nat)
    {code : PyCode} (run : SubprocessOutcome)
    (h : (check_code_safety blocked code).safe = false) :
    execute_code_safely blocked timeoutSeconds code run =
      (⟨false, none,
        some ("Security Error: " ++ (check_code_safety blocked code).reason.getD ""),
        0, true⟩, false) := by
  unfold execute_code_safely
  simp [h]

/-! ## Claim C1 -/

/-- Claim C1: code referencing a denylisted module via a plain import, a
`from`-import, or a dynamic import by a literal module name is rejected
by `check_code_safety` with the root name of the module among the blocked
references, and `execute_code_safely` returns `success = false`,
`blocked_import_detected = true`, `execution_time = 0` without reaching
the subprocess phase. -/
theorem c1_blocked_import_gate (blocked : List String) (code : PyCode)
    (stmts : List PyStmt) (stmt : PyStmt) (r : String)
    (timeoutSeconds : Nat) (run : SubprocessOutcome)
    (hast : code.ast = some stmts) (hstmt : stmt ∈ stmts)
    (href : RefsBlockedModule blocked r stmt) :
    (check_code_safety blocked code).safe = false ∧
    r ∈ (check_code_safety blocked code).blocked_imports ∧
    (execute_code_safely blocked timeoutSeconds code run).1.success = false ∧
    (execute_code_safely blocked timeoutSeconds code run).1.blocked_import_detected = true ∧
    (execute_code_safely blocked timeoutSeconds code run).1.execution_time = 0 ∧
    (execute_code_safely blocked timeoutSeconds code run).2 = false := by
  have hmem : r ∈ gateFound blocked code := by
    unfold gateFound
    rw [hast]
    exact regexPass_mono code.text blocked _ (mem_astPass hstmt (refs_mem_roots href))
  obtain ⟨hsafe, hblocked⟩ := gate_rejects_of_mem hmem
  have hexec := execute_gate_blocked timeoutSeconds run hsafe
  rw [hexec]
  exact ⟨hsafe, hblocked, rfl, rfl, rfl, rfl⟩

/-- Python code value `import os` for the C1 witness. -/
def importOsCode : PyCode := ⟨"import os", some [.importStmt ["os"]]⟩

/-- Witness for C1: the hypotheses hold at `import os` against the
default denylist, and the conclusion follows by the theorem. -/
theorem c1_witness :
    (check_code_safety defaultConfig.blocked_imports importOsCode).safe = false ∧
    "os" ∈ (check_code_safety defaultConfig.blocked_imports importOsCode).blocked_imports ∧
    (execute_code_safely defaultConfig.blocked_imports 10 importOsCode
      (.completed 0 "" "" 1)).1.success = false ∧
    (execute_code_safely defaultConfig.blocked_imports 10 importOsCode
      (.completed 0 "" "" 1)).1.blocked_import_detected = true ∧
    (execute_code_safely defaultConfig.blocked_imports 10 importOsCode
      (.completed 0 "" "" 1)).1.execution_time = 0 ∧
    (execute_code_safely defaultConfig.blocked_imports 10 importOsCode
      (.completed 0 "" "" 1)).2 = false :=
  c1_blocked_import_gate defaultConfig.blocked_imports importOsCode
    [.importStmt ["os"]] (.importStmt ["os"]) "os" 10 (.completed 0 "" "" 1)
    rfl (by simp)
    (RefsBlockedModule.plainImport ["os"] "os" (by simp) (by decide) (by decide))

/-! ## Claim C5 -/

/-- Claim C5: every `ExecutionResult` returned by `execute_code_safely`
satisfies `success = true → error = none` and
`blocked_import_detected = true → success = false`. -/
theorem c5_execution_result_invariants (blocked : List String)
    (timeoutSeconds : Nat) (code : PyCode) (run : SubprocessOutcome) :
    ((execute_code_safely blocked timeoutSeconds code run).1.success = true →
      (execute_code_safely blocked timeoutSeconds code run).1.error = none) ∧
    ((execute_code_safely blocked timeoutSeconds code run).1.blocked_import_detected = true →
      (execute_code_safely blocked timeoutSeconds code run).1.success = false) := by
  unfold execute_code_safely
  by_cases h : (check_code_safety blocked code).safe
  · simp only [h, if_true]
    cases run with
    | completed rc out err t =>
      by_cases hrc : rc == 0
      · simp [hrc]
      · simp [hrc]
    | timedOut t => simp
    | spawnFailed m t => simp
  · simp only [Bool.not_eq_true] at h
    simp [h]

/-- Harmless code value `print(1)` for the executor witnesses. -/
def printOneCode : PyCode := ⟨"print(1)", some [.other]⟩

/-- Witness for C5: both implications fire at concrete inputs — a
successful run of safe code has an empty error, and a blocked-import
rejection is not a success. -/
theorem c5_witness :
    (execute_code_safely defaultConfig.blocked_imports 10 printOneCode
      (.completed 0 "1" "" 1)).1.error = none ∧
    (execute_code_safely defaultConfig.blocked_imports 10 importOsCode
      (.completed 0 "" "" 1)).1.success = false :=
  ⟨(c5_execution_result_invariants defaultConfig.blocked_imports 10 printOneCode
      (.completed 0 "1" "" 1)).1 (by decide),
   (c5_execution_result_invariants defaultConfig.blocked_imports 10 importOsCode
      (.completed 0 "" "" 1)).2 (by decide)⟩

/-! ## Claim C6 -/

/-- Code value containing both `eval(` and `exec(` call syntax. -/
def evalExecCode : PyCode := ⟨"eval(exec(1))", some [.other]⟩

/-- Counterexample for C6 as stated: `eval(exec(1))` contains a
word-boundary `exec(` call pattern, yet the reason of the verdict names
`eval`, not `exec` — the reason reports only the first pattern in the
fixed order eval, exec, compile. -/
theorem c6_counterexample :
    textMatch (builtinCallAt ("exec".data)) evalExecCode.text = true ∧
    (check_code_safety defaultConfig.blocked_imports evalExecCode).safe = false ∧
    (check_code_safety defaultConfig.blocked_imports evalExecCode).reason =
      some "eval() is not allowed" ∧
    (check_code_safety defaultConfig.blocked_imports evalExecCode).reason ≠
      some "exec() is not allowed" := by
  refine ⟨by decide, by decide, by decide, by decide⟩

theorem find_dangerous_eval (code : String)
    (hv : textMatch (builtinCallAt ("eval".data)) code = true) :
    findDangerousReason code = some "eval() is not allowed" := by
  unfold findDangerousReason dangerousPatterns
  simp [List.find?, hv]

theorem find_dangerous_exec (code : String)
    (hv : textMatch (builtinCallAt ("eval".data)) code = false)
    (he : textMatch (builtinCallAt ("exec".data)) code = true) :
    findDangerousReason code = some "exec() is not allowed" := by
  unfold findDangerousReason dangerousPatterns
  simp [List.find?, hv, he]

theorem find_dangerous_compile (code : String)
    (hv : textMatch (builtinCallAt ("eval".data)) code = false)
    (he : textMatch (builtinCallAt ("exec".data)) code = false)
    (hc : textMatch (builtinCallAt ("compile".data)) code = true) :
    findDangerousReason code = some "compile() is not allowed" := by
  unfold findDangerousReason dangerousPatterns
  simp [List.find?, hv, he, hc]

theorem check_of_dangerous (blocked : List String) (code : PyCode) (msg : String)
    (h : findDangerousReason code.text = some msg) :
    check_code_safety blocked code = ⟨false, some msg, gateFound blocked code⟩ := by
  unfold check_code_safety
  rw [h]

/-- Claim C6 (amended): when code contains dynamic-evaluation builtin
call syntax, the verdict is unsafe regardless of import findings, and
its reason names exactly the first matched builtin in the fixed order
eval, exec, compile — whenever the eval pattern matches the reason names
eval; whenever only the exec pattern matches (no eval) it names exec;
whenever only the compile pattern matches (no eval, no exec) it names
compile.  So when several builtins occur, only the highest-priority one
is named. -/
theorem c6_dynamic_eval_priority (blocked : List String) (code : PyCode)
    (nm : String) (hnm : nm ∈ (["eval", "exec", "compile"] : List String))
    (hmatch : textMatch (builtinCallAt nm.data) code.text = true) :
    (check_code_safety blocked code).safe = false ∧
    (textMatch (builtinCallAt ("eval".data)) code.text = true →
      (check_code_safety blocked code).reason = some "eval() is not allowed") ∧
    (textMatch (builtinCallAt ("eval".data)) code.text = false →
      textMatch (builtinCallAt ("exec".data)) code.text = true →
      (check_code_safety blocked code).reason = some "exec() is not allowed") ∧
    (textMatch (builtinCallAt ("eval".data)) code.text = false →
      textMatch (builtinCallAt ("exec".data)) code.text = false →
      textMatch (builtinCallAt ("compile".data)) code.text = true →
      (check_code_safety blocked code).reason = some "compile() is not allowed") := by
  refine ⟨?_, ?_, ?_, ?_⟩
  · rcases (by simpa using hnm : nm = "eval" ∨ nm = "exec" ∨ nm = "compile") with rfl | rfl | rfl
    · rw [check_of_dangerous blocked code _ (find_dangerous_eval code.text hmatch)]
    · by_cases hv : textMatch (builtinCallAt ("eval".data)) code.text = true
      · rw [check_of_dangerous blocked code _ (find_dangerous_eval code.text hv)]
      · rw [Bool.not_eq_true] at hv
        rw [check_of_dangerous blocked code _ (find_dangerous_exec code.text hv hmatch)]
    · by_cases hv : textMatch (builtinCallAt ("eval".data)) code.text = true
      · rw [check_of_dangerous blocked code _ (find_dangerous_eval code.text hv)]
      · rw [Bool.not_eq_true] at hv
        by_cases he : textMatch (builtinCallAt ("exec".data)) code.text = true
        · rw [check_of_dangerous blocked code _ (find_dangerous_exec code.text hv he)]
        · rw [Bool.not_eq_true] at he
          rw [check_of_dangerous blocked code _
            (find_dangerous_compile code.text hv he hmatch)]
  · intro hv
    rw [check_of_dangerous blocked code _ (find_dangerous_eval code.text hv)]
  · intro hv he
    rw [check_of_dangerous blocked code _ (find_dangerous_exec code.text hv he)]
  · intro hv he hc
    rw [check_of_dangerous blocked code _ (find_dangerous_compile code.text hv he hc)]

/-- Code value with a single `exec(` reference for the C6 witness. -/
def execOnlyCode : PyCode := ⟨"exec(1)", some [.other]⟩

/-- Witness for C6 (amended): at `exec(1)` the hypotheses hold; the
priority clauses instantiate so that the exec clause fires (its
hypotheses hold at this input) and the reason names `exec`. -/
theorem c6_witness :
    ((check_code_safety defaultConfig.blocked_imports execOnlyCode).safe = false ∧
    (textMatch (builtinCallAt ("eval".data)) execOnlyCode.text = true →
      (check_code_safety defaultConfig.blocked_imports execOnlyCode).reason =
        some "eval() is not allowed") ∧
    (textMatch (builtinCallAt ("eval".data)) execOnlyCode.text = false →
      textMatch (builtinCallAt ("exec".data)) execOnlyCode.text = true →
      (check_code_safety defaultConfig.blocked_imports execOnlyCode).reason =
        some "exec() is not allowed") ∧
    (textMatch (builtinCallAt ("eval".data)) execOnlyCode.text = false →
      textMatch (builtinCallAt ("exec".data)) execOnlyCode.text = false →
      textMatch (builtinCallAt ("compile".data)) execOnlyCode.text = true →
      (check_code_safety defaultConfig.blocked_imports execOnlyCode).reason =
        some "compile() is not allowed")) ∧
    (check_code_safety defaultConfig.blocked_imports execOnlyCode).reason =
      some "exec() is not allowed" :=
  ⟨c6_dynamic_eval_priority defaultConfig.blocked_imports execOnlyCode "exec"
    (by decide) (by decide),
   (c6_dynamic_eval_priority defaultConfig.blocked_imports execOnlyCode "exec"
    (by decide) (by decide)).2.2.1 (by decide) (by decide)⟩

/-! ## Claim C10 -/

/-- Claim C10: the textual pass is context-insensitive — any raw-text
match of the `eval(`/`exec(`/`compile(` call patterns, or of a
denylisted module name after `import`/`from` syntax, anywhere in the
text (string literals and comments included, whatever the structural
view of the code), makes `check_code_safety` return `safe = false`. -/
theorem c10_textual_pass (blocked : List String) (code : PyCode)
    (h : (∃ nm ∈ (["eval", "exec", "compile"] : List String),
            textMatch (builtinCallAt nm.data) code.text = true) ∨
         (∃ m ∈ blocked,
            textMatch (importAt m.data) code.text = true ∨
            textMatch (fromAt m.data) code.text = true)) :
    (check_code_safety blocked code).safe = false := by
  rcases h with ⟨nm, hnm, hmatch⟩ | ⟨m, hm, hmatch⟩
  · exact (c6_dynamic_eval_priority blocked code nm hnm hmatch).1
  · have hhit : textModuleHit m code.text = true := by
      unfold textModuleHit
      rcases hmatch with h1 | h1 <;> simp [h1]
    have hmem : m ∈ gateFound blocked code :=
      regexPass_hit code.text hhit blocked _ hm
    exact (gate_rejects_of_mem hmem).1

/-- Harmless code whose comment mentions `compile(`. -/
def commentCompileCode : PyCode := ⟨"x = 1  # compile(x) someday", some [.other]⟩

/-- Witness for C10: a `compile(` occurrence inside a comment of
otherwise harmless code is rejected. -/
theorem c10_witness :
    (∃ nm ∈ (["eval", "exec", "compile"] : List String),
      textMatch (builtinCallAt nm.data) commentCompileCode.text = true) ∧
    (check_code_safety defaultConfig.blocked_imports commentCompileCode).safe = false :=
  ⟨⟨"compile", by decide, by decide⟩,
   c10_textual_pass defaultConfig.blocked_imports commentCompileCode
     (Or.inl ⟨"compile", by decide, by decide⟩)⟩

/-! ## Claim C9 -/

theorem firstValid_sound {R : Type} (f : String → Option R) (l : List String) (r : R)
    (h : firstValid f l = some r) : ∃ s ∈ l, f s = some r := by
  induction l with
  | nil => simp [firstValid] at h
  | cons a t ih =>
    unfold firstValid at h
    cases hf : f a with
    | some x =>
      rw [hf] at h
      have hx : (some x : Option R) = some r := h
      exact ⟨a, by simp, by rw [hf, hx]⟩
    | none =>
      rw [hf] at h
      have h2 : firstValid f t = some r := h
      obtain ⟨s, hs, hfs⟩ := ih h2
      exact ⟨s, by simp [hs], hfs⟩

/-- Claim C9: for every response string and record kind (`loads` and
`validateRecord` stand for the decoding and validation of the record kind,
both of which swallow their exceptions), `parse_json_response` is a
total function that returns either `none` or a record obtained from some
candidate substring through `try_parse_and_validate`, i.e. one that
decoded and passed schema validation. -/
theorem c9_parser_total_sound {J R : Type} (loads : String → Option J)
    (validateRecord : J → Option R) (response : String) :
    parse_json_response loads validateRecord response = none ∨
    ∃ r s, parse_json_response loads validateRecord response = some r ∧
      try_parse_and_validate loads validateRecord s = some r := by
  cases h : parse_json_response loads validateRecord response with
  | none => exact Or.inl rfl
  | some r =>
    right
    have h2 := h
    unfold parse_json_response at h2
    obtain ⟨s, _, hfs⟩ := firstValid_sound _ _ _ h2
    exact ⟨r, s, rfl, hfs⟩

/-! ## Lemmas about the state-machine nodes -/

theorem fix_node_fields (cfg : Config) (p e : Option String) (s : AgentState) :
    (fix_node cfg p e s).attempt = s.attempt ∧
    (fix_node cfg p e s).error_history = s.error_history ∧
    (fix_node cfg p e s).original_code = s.original_code ∧
    (fix_node cfg p e s).execution_result = s.execution_result := by
  unfold fix_node
  dsimp only
  split <;> exact ⟨rfl, rfl, rfl, rfl⟩

theorem fix_node_status (cfg : Config) (p e : Option String) (s : AgentState) :
    (fix_node cfg p e s).status = "failed" ∨ (fix_node cfg p e s).status = "fixing" := by
  unfold fix_node
  dsimp only
  split
  · exact Or.inl rfl
  · exact Or.inr rfl

theorem fix_node_none_none (cfg : Config) (s : AgentState)
    (h : ¬ (cfg.max_retries * 2 ≤ s.parse_failures + 1)) :
    fix_node cfg none none s =
      { s with parse_failures := s.parse_failures + 1, status := "fixing" } := by
  unfold fix_node
  dsimp only
  rw [if_neg h]

theorem execute_node_attempt (cfg : Config) (a : Option (List PyStmt))
    (r : SubprocessOutcome) (s : AgentState) :
    (execute_node cfg a r s).attempt = s.attempt := rfl

theorem execute_node_pf (cfg : Config) (a : Option (List PyStmt))
    (r : SubprocessOutcome) (s : AgentState) :
    (execute_node cfg a r s).parse_failures = s.parse_failures := rfl

theorem execute_node_current (cfg : Config) (a : Option (List PyStmt))
    (r : SubprocessOutcome) (s : AgentState) :
    (execute_node cfg a r s).current_code = s.current_code := rfl

theorem execute_node_original (cfg : Config) (a : Option (List PyStmt))
    (r : SubprocessOutcome) (s : AgentState) :
    (execute_node cfg a r s).original_code = s.original_code := rfl

theorem execute_node_status (cfg : Config) (a : Option (List PyStmt))
    (r : SubprocessOutcome) (s : AgentState) :
    (execute_node cfg a r s).status = "executing" := rfl

theorem resultSuccess_execute (cfg : Config) (a : Option (List PyStmt))
    (r : SubprocessOutcome) (s : AgentState) :
    resultSuccess (execute_node cfg a r s) =
      (execute_code_safely cfg.blocked_imports cfg.execution_timeout
        ⟨s.current_code, a⟩ r).1.success := rfl

theorem execute_node_eh_le (cfg : Config) (a : Option (List PyStmt))
    (r : SubprocessOutcome) (s : AgentState) :
    (execute_node cfg a r s).error_history.length ≤ s.error_history.length + 1 := by
  unfold execute_node
  dsimp only
  split
  · split
    · simp
    · simp
  · simp

theorem execute_node_eh_of_success (cfg : Config) (a : Option (List PyStmt))
    (r : SubprocessOutcome) (s : AgentState)
    (h : (execute_code_safely cfg.blocked_imports cfg.execution_timeout
      ⟨s.current_code, a⟩ r).1.success = true) :
    (execute_node cfg a r s).error_history = s.error_history := by
  unfold execute_node
  dsimp only
  split
  · rename_i e heq
    rw [if_neg]
    rintro ⟨hfalse, -⟩
    rw [h] at hfalse
    cases hfalse
  · rfl

theorem evaluate_node_eh (cfg : Config) (s : AgentState) :
    (evaluate_node cfg s).error_history = s.error_history := by
  unfold evaluate_node
  dsimp only
  split
  · rfl
  · split
    · rfl
    · split
      · rfl
      · rfl

theorem evaluate_node_status_cases (cfg : Config) (s : AgentState) :
    (evaluate_node cfg s).status = "success" ∨ (evaluate_node cfg s).status = "failed" ∨
    (evaluate_node cfg s).status = "fixing" := by
  unfold evaluate_node
  dsimp only
  split
  · exact Or.inl rfl
  · split
    · exact Or.inr (Or.inl rfl)
    · split
      · exact Or.inr (Or.inl rfl)
      · exact Or.inr (Or.inr rfl)

theorem evaluate_node_attempt_cases (cfg : Config) (s : AgentState) :
    (evaluate_node cfg s).attempt = s.attempt ∨
    (evaluate_node cfg s).attempt = s.attempt + 1 := by
  unfold evaluate_node
  dsimp only
  split
  · exact Or.inl rfl
  · split
    · exact Or.inr rfl
    · split
      · exact Or.inr rfl
      · exact Or.inr rfl

theorem evaluate_node_success (cfg : Config) (s : AgentState)
    (h : resultSuccess s = true) :
    evaluate_node cfg s = { s with status := "success" } := by
  unfold evaluate_node
  rw [if_pos h]

theorem evaluate_node_retry (cfg : Config) (s : AgentState)
    (hf : resultSuccess s = false)
    (hg : ¬ (0 < s.parse_failures ∧ 1 < s.attempt + 1 ∧ s.current_code = s.original_code))
    (hm : ¬ (cfg.max_retries ≤ s.attempt + 1)) :
    evaluate_node cfg s = { s with attempt := s.attempt + 1, status := "fixing" } := by
  unfold evaluate_node
  rw [if_neg (by simp [hf]), if_neg hg, if_neg hm]

theorem evaluate_node_stuck (cfg : Config) (s : AgentState)
    (hf : resultSuccess s = false) (hpf : 0 < s.parse_failures)
    (hat : 0 < s.attempt) (hc : s.current_code = s.original_code) :
    evaluate_node cfg s = { s with attempt := s.attempt + 1, status := "failed" } := by
  unfold evaluate_node
  rw [if_neg (by simp [hf]), if_pos ⟨hpf, by omega, hc⟩]

theorem evaluate_cases (cfg : Config) (s : AgentState) :
    evaluate_node cfg s = { s with status := "success" } ∨
    ((evaluate_node cfg s).status = "failed" ∧
      (evaluate_node cfg s).attempt = s.attempt + 1) ∨
    ((evaluate_node cfg s).status = "fixing" ∧
      (evaluate_node cfg s).attempt = s.attempt + 1 ∧
      s.attempt + 1 < cfg.max_retries) := by
  by_cases hs : resultSuccess s = true
  · exact Or.inl (evaluate_node_success cfg s hs)
  · rw [Bool.not_eq_true] at hs
    unfold evaluate_node
    rw [if_neg (by simp [hs])]
    dsimp only
    by_cases h1 : 0 < s.parse_failures ∧ 1 < s.attempt + 1 ∧ s.current_code = s.original_code
    · rw [if_pos h1]
      exact Or.inr (Or.inl ⟨rfl, rfl⟩)
    · rw [if_neg h1]
      by_cases h2 : cfg.max_retries ≤ s.attempt + 1
      · rw [if_pos h2]
        exact Or.inr (Or.inl ⟨rfl, rfl⟩)
      · rw [if_neg h2]
        exact Or.inr (Or.inr ⟨rfl, rfl, by omega⟩)

theorem should_continue_end (s : AgentState)
    (h : s.status = "success" ∨ s.status = "failed") : should_continue s = "end" := by
  unfold should_continue
  rw [if_pos h]

theorem should_continue_end_iff (s : AgentState) :
    should_continue s = "end" ↔ s.status = "success" ∨ s.status = "failed" := by
  unfold should_continue
  split
  · rename_i h
    exact iff_of_true rfl h
  · rename_i h
    exact iff_of_false (by decide) h

theorem should_continue_ne_end (s : AgentState)
    (h1 : s.status ≠ "success") (h2 : s.status ≠ "failed") :
    should_continue s ≠ "end" := by
  unfold should_continue
  rw [if_neg (by rintro (h | h) <;> [exact h1 h; exact h2 h])]
  decide

theorem runCycles_succ_end (cfg : Config) (orc : Nat → CycleOracle)
    (s0 : AgentState) (n : Nat)
    (h : should_continue (runCycles cfg orc s0 n) = "end") :
    runCycles cfg orc s0 (n + 1) = runCycles cfg orc s0 n := by
  simp only [runCycles]
  rw [if_pos h]

theorem runCycles_succ_step (cfg : Config) (orc : Nat → CycleOracle)
    (s0 : AgentState) (n : Nat)
    (h : should_continue (runCycles cfg orc s0 n) ≠ "end") :
    runCycles cfg orc s0 (n + 1) = runStep cfg (orc n) (runCycles cfg orc s0 n) := by
  simp only [runCycles]
  rw [if_neg h]

theorem runCycles_succ_eval (cfg : Config) (orc : Nat → CycleOracle)
    (s0 : AgentState) (n : Nat)
    (h : should_continue (runCycles cfg orc s0 n) ≠ "end") :
    runCycles cfg orc s0 (n + 1) = evalState cfg orc s0 n :=
  runCycles_succ_step cfg orc s0 n h

/-! ## Claim C2 -/

/-- A configuration with `max_retries = 1`, the smallest budget at which
the fix-node parse-failure guard can fire. -/
def cfgOne : Config := ⟨1, 10, defaultConfig.blocked_imports⟩

/-- A failing execution outcome: exit code 1 with a `NameError`. -/
def nameErrorOutcome : SubprocessOutcome :=
  .completed 1 "" "NameError: name undefined_var is not defined" 1

/-- Oracle of a stuck run: every fix response is unparseable with nothing
salvageable, and the (safe) code always fails at runtime. -/
def stuckFailOracle : Nat → CycleOracle :=
  fun _ => ⟨none, none, some [.other], nameErrorOutcome⟩

/-- Same stuck oracle, but the code happens to execute successfully. -/
def stuckPassOracle : Nat → CycleOracle :=
  fun _ => ⟨none, none, some [.other], .completed 0 "ok" "" 1⟩

/-- A run whose review response already failed to parse. -/
def stuckStart : AgentState := startState false "x = undefined_var"

/-- Claim C2, evaluated at the failing input: with `max_retries = 1` and
unparseable responses throughout, the parse-failure budget
`2 × max_retries` is reached inside the fix node (which sets status
`failed`), yet the Executing step still runs for that cycle — the
fix→execute edge is unconditional, the executor consumes the subprocess
outcome and extends the error history, and with a succeeding execution
the run even terminates in `success` instead of `failed`. -/
theorem c2_budget_guard_does_not_skip_execute :
    (fixState cfgOne stuckFailOracle stuckStart 0).parse_failures =
      2 * cfgOne.max_retries ∧
    (fixState cfgOne stuckFailOracle stuckStart 0).status = "failed" ∧
    (execState cfgOne stuckFailOracle stuckStart 0).status = "executing" ∧
    (execState cfgOne stuckFailOracle stuckStart 0).error_history.length = 1 ∧
    (runCycles cfgOne stuckFailOracle stuckStart 1).status = "failed" ∧
    (runCycles cfgOne stuckPassOracle stuckStart 1).status = "success" := by
  refine ⟨by decide, by decide, by decide, by decide, by decide, by decide⟩

/-! ## Claim C3 -/

theorem runStep_status_cases (cfg : Config) (cy : CycleOracle) (s : AgentState) :
    (runStep cfg cy s).status = "success" ∨ (runStep cfg cy s).status = "failed" ∨
    (runStep cfg cy s).status = "fixing" := by
  have h := evaluate_node_status_cases cfg
    (execute_node cfg cy.astCurrent cy.run (fix_node cfg cy.fixParsed cy.fixExtracted s))
  exact h

theorem run_status_mem (cfg : Config) (orc : Nat → CycleOracle) (s0 : AgentState)
    (h0 : s0.status ∈ statusEnum) :
    ∀ n, (runCycles cfg orc s0 n).status ∈ statusEnum := by
  intro n
  induction n with
  | zero => exact h0
  | succ n ih =>
    by_cases h : should_continue (runCycles cfg orc s0 n) = "end"
    · rw [runCycles_succ_end cfg orc s0 n h]
      exact ih
    · rw [runCycles_succ_step cfg orc s0 n h]
      rcases runStep_status_cases cfg (orc n) (runCycles cfg orc s0 n) with hs | hs | hs <;>
        rw [hs] <;> decide

/-- Claim C3: at every observed point of a run — the initial state, the
reviewed state, the state after any number of cycles, and the states
right after the fix, execute, and evaluate nodes of any cycle — the
status field is one of the six enumerated values (the five the code ever
assigns are a subset; `evaluating` is listed but never assigned). -/
theorem c3_status_enum (cfg : Config) (orc : Nat → CycleOracle) (rp : Bool)
    (code : String) (n : Nat) :
    (initial_state code).status ∈ statusEnum ∧
    (startState rp code).status ∈ statusEnum ∧
    (runCycles cfg orc (startState rp code) n).status ∈ statusEnum ∧
    (fixState cfg orc (startState rp code) n).status ∈ statusEnum ∧
    (execState cfg orc (startState rp code) n).status ∈ statusEnum ∧
    (evalState cfg orc (startState rp code) n).status ∈ statusEnum := by
  refine ⟨?_, ?_, ?_, ?_, ?_, ?_⟩
  · show ("reviewing" : String) ∈ statusEnum
    decide
  · show ("reviewing" : String) ∈ statusEnum
    decide
  · exact run_status_mem cfg orc _ (by show ("reviewing" : String) ∈ statusEnum; decide) n
  · unfold fixState
    rcases fix_node_status cfg (orc n).fixParsed (orc n).fixExtracted
      (runCycles cfg orc (startState rp code) n) with h | h <;> rw [h] <;> decide
  · unfold execState
    rw [execute_node_status]
    decide
  · unfold evalState
    rcases evaluate_node_status_cases cfg (execState cfg orc (startState rp code) n)
      with h | h | h <;> rw [h] <;> decide

/-! ## Claim C7 -/

theorem fix_node_ehOk (cfg : Config) (p e : Option String) (s : AgentState)
    (h : s.error_history.length ≤ s.attempt) :
    (fix_node cfg p e s).error_history.length ≤ (fix_node cfg p e s).attempt := by
  obtain ⟨ha, he, -, -⟩ := fix_node_fields cfg p e s
  rw [ha, he]
  exact h

theorem execute_node_ehOk1 (cfg : Config) (a : Option (List PyStmt))
    (r : SubprocessOutcome) (s : AgentState)
    (h : s.error_history.length ≤ s.attempt) :
    (execute_node cfg a r s).error_history.length ≤ (execute_node cfg a r s).attempt + 1 := by
  rw [execute_node_attempt]
  calc (execute_node cfg a r s).error_history.length
      ≤ s.error_history.length + 1 := execute_node_eh_le cfg a r s
    _ ≤ s.attempt + 1 := by omega

theorem evaluate_node_ehOk (cfg : Config) (s : AgentState)
    (h1 : s.error_history.length ≤ s.attempt + 1)
    (h2 : resultSuccess s = true → s.error_history.length ≤ s.attempt) :
    (evaluate_node cfg s).error_history.length ≤ (evaluate_node cfg s).attempt := by
  by_cases hs : resultSuccess s = true
  · rw [evaluate_node_success cfg s hs]
    exact h2 hs
  · rw [Bool.not_eq_true] at hs
    have heq := evaluate_node_eh cfg s
    have hat : (evaluate_node cfg s).attempt = s.attempt + 1 := by
      unfold evaluate_node
      rw [if_neg (by simp [hs])]
      dsimp only
      split
      · rfl
      · split
        · rfl
        · rfl
    rw [heq, hat]
    exact h1

theorem runStep_ehOk (cfg : Config) (cy : CycleOracle) (s : AgentState)
    (h : s.error_history.length ≤ s.attempt) :
    (runStep cfg cy s).error_history.length ≤ (runStep cfg cy s).attempt := by
  have h1 := fix_node_ehOk cfg cy.fixParsed cy.fixExtracted s h
  apply evaluate_node_ehOk
  · exact execute_node_ehOk1 cfg cy.astCurrent cy.run _ h1
  · intro hsucc
    rw [resultSuccess_execute] at hsucc
    rw [execute_node_eh_of_success cfg cy.astCurrent cy.run _ hsucc, execute_node_attempt]
    exact h1

theorem run_ehOk (cfg : Config) (orc : Nat → CycleOracle) (s0 : AgentState)
    (h0 : s0.error_history.length ≤ s0.attempt) :
    ∀ n, (runCycles cfg orc s0 n).error_history.length ≤ (runCycles cfg orc s0 n).attempt := by
  intro n
  induction n with
  | zero => exact h0
  | succ n ih =>
    by_cases h : should_continue (runCycles cfg orc s0 n) = "end"
    · rw [runCycles_succ_end cfg orc s0 n h]
      exact ih
    · rw [runCycles_succ_step cfg orc s0 n h]
      exact runStep_ehOk cfg (orc n) _ ih

/-- Counterexample for C7 as stated: a failing first execution makes the
error history one element long while the attempt counter is still 0 at
the post-execute observation point, so `errorHistory length ≤ attempt`
does not hold after every transition. -/
def zeroDivOutcome : SubprocessOutcome :=
  .completed 1 "" "ZeroDivisionError: division by zero" 1

/-- Oracle whose fix responses parse to the same code and whose
executions always fail with a `ZeroDivisionError`. -/
def divFixOracle : Nat → CycleOracle :=
  fun _ => ⟨some "x = 1/0", none, some [.other], zeroDivOutcome⟩

/-- A reviewed run of the code `x = 1/0`. -/
def divStart : AgentState := startState true "x = 1/0"

/-- Counterexample for C7: right after the Executing step of the first
cycle the error history has length 1 but the attempt counter is 0. -/
theorem c7_counterexample :
    (execState defaultConfig divFixOracle divStart 0).error_history.length = 1 ∧
    (execState defaultConfig divFixOracle divStart 0).attempt = 0 ∧
    ¬ ((execState defaultConfig divFixOracle divStart 0).error_history.length ≤
        (execState defaultConfig divFixOracle divStart 0).attempt) := by
  refine ⟨by decide, by decide, by decide⟩

/-- Claim C7 (amended): `errorHistory length ≤ attempt` holds at every
observed point except immediately after an Executing step that recorded
an error (appended to the history) — there only
`errorHistory length ≤ attempt + 1` is guaranteed.  After an Executing
step that recorded no error (the history is unchanged) the bound
`errorHistory length ≤ attempt` still holds, and the following
Evaluating transition restores it in every case. -/
theorem c7_error_history_bound (cfg : Config) (orc : Nat → CycleOracle) (rp : Bool)
    (code : String) (n : Nat) :
    (runCycles cfg orc (startState rp code) n).error_history.length ≤
      (runCycles cfg orc (startState rp code) n).attempt ∧
    (fixState cfg orc (startState rp code) n).error_history.length ≤
      (fixState cfg orc (startState rp code) n).attempt ∧
    (execState cfg orc (startState rp code) n).error_history.length ≤
      (execState cfg orc (startState rp code) n).attempt + 1 ∧
    ((execState cfg orc (startState rp code) n).error_history =
        (fixState cfg orc (startState rp code) n).error_history →
      (execState cfg orc (startState rp code) n).error_history.length ≤
        (execState cfg orc (startState rp code) n).attempt) ∧
    (evalState cfg orc (startState rp code) n).error_history.length ≤
      (evalState cfg orc (startState rp code) n).attempt := by
  have h0 : (startState rp code).error_history.length ≤ (startState rp code).attempt := by
    show ([] : List String).length ≤ 0
    simp
  have hrun := run_ehOk cfg orc (startState rp code) h0 n
  have hfix := fix_node_ehOk cfg (orc n).fixParsed (orc n).fixExtracted _ hrun
  refine ⟨hrun, hfix, execute_node_ehOk1 cfg (orc n).astCurrent (orc n).run _ hfix,
    ?_, ?_⟩
  · intro heq
    unfold execState at heq ⊢
    rw [heq, execute_node_attempt]
    exact hfix
  · unfold evalState
    apply evaluate_node_ehOk
    · exact execute_node_ehOk1 cfg (orc n).astCurrent (orc n).run _ hfix
    · intro hsucc
      unfold execState at hsucc ⊢
      rw [resultSuccess_execute] at hsucc
      rw [execute_node_eh_of_success cfg (orc n).astCurrent (orc n).run _ hsucc,
        execute_node_attempt]
      exact hfix

/-- Oracle of a run whose fix response parses and whose execution
succeeds immediately (no error is recorded). -/
def passFixOracle : Nat → CycleOracle :=
  fun _ => ⟨some "x = 1", none, some [.other], .completed 0 "" "" 1⟩

/-- Witness for C7 (amended): at a concrete run whose first Executing
step records no error, the history is unchanged by that step and the
tight bound `errorHistory length ≤ attempt` follows by the theorem. -/
theorem c7_witness :
    (execState defaultConfig passFixOracle (startState true "x = 1") 0).error_history =
      (fixState defaultConfig passFixOracle (startState true "x = 1") 0).error_history ∧
    (execState defaultConfig passFixOracle (startState true "x = 1") 0).error_history.length ≤
      (execState defaultConfig passFixOracle (startState true "x = 1") 0).attempt :=
  ⟨by decide,
   (c7_error_history_bound defaultConfig passFixOracle true "x = 1" 0).2.2.2.1 (by decide)⟩

/-! ## Claim C4 -/

theorem runStep_attempt_le (cfg : Config) (cy : CycleOracle) (s : AgentState) :
    (runStep cfg cy s).attempt ≤ s.attempt + 1 := by
  have hfix := (fix_node_fields cfg cy.fixParsed cy.fixExtracted s).1
  have hexec := execute_node_attempt cfg cy.astCurrent cy.run
    (fix_node cfg cy.fixParsed cy.fixExtracted s)
  rcases evaluate_node_attempt_cases cfg
    (execute_node cfg cy.astCurrent cy.run (fix_node cfg cy.fixParsed cy.fixExtracted s))
    with h | h
  · show (evaluate_node cfg _).attempt ≤ s.attempt + 1
    rw [h, hexec, hfix]
    omega
  · show (evaluate_node cfg _).attempt ≤ s.attempt + 1
    rw [h, hexec, hfix]

theorem run_inv (cfg : Config) (orc : Nat → CycleOracle) (s0 : AgentState)
    (h0 : s0.attempt = 0) (hmax : 1 ≤ cfg.max_retries) :
    ∀ n, should_continue (runCycles cfg orc s0 n) = "end" ∨
      ((runCycles cfg orc s0 n).attempt = n ∧ n < cfg.max_retries) := by
  intro n
  induction n with
  | zero => exact Or.inr ⟨h0, hmax⟩
  | succ n ih =>
    by_cases hend : should_continue (runCycles cfg orc s0 n) = "end"
    · left
      rw [runCycles_succ_end cfg orc s0 n hend]
      exact hend
    · rcases ih with h | ⟨hat, hlt⟩
      · exact absurd h hend
      rw [runCycles_succ_step cfg orc s0 n hend]
      have hta : (execute_node cfg (orc n).astCurrent (orc n).run
          (fix_node cfg (orc n).fixParsed (orc n).fixExtracted
            (runCycles cfg orc s0 n))).attempt = n := by
        rw [execute_node_attempt,
          (fix_node_fields cfg (orc n).fixParsed (orc n).fixExtracted _).1, hat]
      rcases evaluate_cases cfg (execute_node cfg (orc n).astCurrent (orc n).run
          (fix_node cfg (orc n).fixParsed (orc n).fixExtracted (runCycles cfg orc s0 n)))
        with heq | ⟨hst, _⟩ | ⟨hst, hat2, hlt2⟩
      · left
        apply should_continue_end
        left
        show (evaluate_node cfg _).status = "success"
        rw [heq]
      · left
        exact should_continue_end _ (Or.inr hst)
      · right
        refine ⟨?_, ?_⟩
        · show (evaluate_node cfg _).attempt = n + 1
          rw [hat2, hta]
        · rw [hta] at hlt2
          exact hlt2

theorem run_attempt_le (cfg : Config) (orc : Nat → CycleOracle) (s0 : AgentState)
    (h0 : s0.attempt = 0) (hmax : 1 ≤ cfg.max_retries) :
    ∀ n, (runCycles cfg orc s0 n).attempt ≤ cfg.max_retries := by
  intro n
  induction n with
  | zero =>
    show s0.attempt ≤ cfg.max_retries
    omega
  | succ n ih =>
    by_cases hend : should_continue (runCycles cfg orc s0 n) = "end"
    · rw [runCycles_succ_end cfg orc s0 n hend]
      exact ih
    · rcases run_inv cfg orc s0 h0 hmax n with h | ⟨hat, hlt⟩
      · exact absurd h hend
      rw [runCycles_succ_step cfg orc s0 n hend]
      have := runStep_attempt_le cfg (orc n) (runCycles cfg orc s0 n)
      omega

/-- A configuration with `max_retries = 0`. -/
def cfgZero : Config := ⟨0, 10, defaultConfig.blocked_imports⟩

/-- Counterexample for C4 as stated: with `maxRetries = 0` (so the
parse-failure budget is also 0) a run with a failing execution is not
terminal after 0 cycles, and the terminal state it does reach has
`attempt = 1 > 0 = maxRetries`. -/
theorem c4_counterexample :
    should_continue (runCycles cfgZero divFixOracle divStart 0) = "fix" ∧
    (runCycles cfgZero divFixOracle divStart 1).status = "failed" ∧
    (runCycles cfgZero divFixOracle divStart 1).attempt = 1 ∧
    ¬ ((runCycles cfgZero divFixOracle divStart 1).attempt ≤ cfgZero.max_retries) := by
  refine ⟨by decide, by decide, by decide, by decide⟩

/-- Claim C4 (amended): provided `maxRetries ≥ 1`, every run is terminal
(`Success` or `Failed`) after at most `maxRetries` cycles — a fortiori
within `maxRetries` cycles plus the parse-failure budget — and the final
attempt counter satisfies `attempt ≤ maxRetries`. -/
theorem c4_termination (cfg : Config) (orc : Nat → CycleOracle) (rp : Bool)
    (code : String) (hmax : 1 ≤ cfg.max_retries) :
    should_continue (runCycles cfg orc (startState rp code) cfg.max_retries) = "end" ∧
    ((runCycles cfg orc (startState rp code) cfg.max_retries).status = "success" ∨
      (runCycles cfg orc (startState rp code) cfg.max_retries).status = "failed") ∧
    (runCycles cfg orc (startState rp code) cfg.max_retries).attempt ≤ cfg.max_retries := by
  have h0 : (startState rp code).attempt = 0 := rfl
  have hend : should_continue (runCycles cfg orc (startState rp code) cfg.max_retries) = "end" := by
    rcases run_inv cfg orc (startState rp code) h0 hmax cfg.max_retries with h | ⟨-, hlt⟩
    · exact h
    · omega
  exact ⟨hend, (should_continue_end_iff _).mp hend,
    run_attempt_le cfg orc (startState rp code) h0 hmax cfg.max_retries⟩

/-- Witness for C4 (amended): at the default configuration and a run
whose executions keep failing, the run is terminal after 3 cycles with
`attempt ≤ 3`. -/
theorem c4_witness :
    1 ≤ defaultConfig.max_retries ∧
    (should_continue (runCycles defaultConfig divFixOracle
      (startState true "x = 1/0") defaultConfig.max_retries) = "end" ∧
    ((runCycles defaultConfig divFixOracle
        (startState true "x = 1/0") defaultConfig.max_retries).status = "success" ∨
      (runCycles defaultConfig divFixOracle
        (startState true "x = 1/0") defaultConfig.max_retries).status = "failed") ∧
    (runCycles defaultConfig divFixOracle
      (startState true "x = 1/0") defaultConfig.max_retries).attempt ≤
        defaultConfig.max_retries) :=
  ⟨by decide, c4_termination defaultConfig divFixOracle true "x = 1/0" (by decide)⟩

/-! ## Claim C8 -/

/-- Claim C8: first, the general guard — at an Evaluating step after a
failed execution, with at least one parse failure recorded, at least one
previous attempt, and the current code still identical to the original,
the machine moves to `failed`; second, the scenario — two consecutive
cycles whose fix responses fail to parse with nothing salvageable and
whose executions fail leave the code byte-identical to the original, and
the run halts in `failed` at attempt 2, strictly before `maxRetries`
(for any budget larger than 2, such as the default 3). -/
theorem c8_stuck_code_unchanged :
    (∀ (cfg : Config) (s : AgentState),
      resultSuccess s = false → 0 < s.parse_failures → 0 < s.attempt →
      s.current_code = s.original_code →
      (evaluate_node cfg s).status = "failed" ∧
      (evaluate_node cfg s).attempt = s.attempt + 1) ∧
    (∀ (cfg : Config) (orc : Nat → CycleOracle) (code : String),
      2 < cfg.max_retries →
      (orc 0).fixParsed = none → (orc 0).fixExtracted = none →
      (orc 1).fixParsed = none → (orc 1).fixExtracted = none →
      (execute_code_safely cfg.blocked_imports cfg.execution_timeout
        ⟨code, (orc 0).astCurrent⟩ (orc 0).run).1.success = false →
      (execute_code_safely cfg.blocked_imports cfg.execution_timeout
        ⟨code, (orc 1).astCurrent⟩ (orc 1).run).1.success = false →
      (runCycles cfg orc (startState true code) 2).status = "failed" ∧
      (runCycles cfg orc (startState true code) 2).attempt = 2 ∧
      (runCycles cfg orc (startState true code) 2).attempt < cfg.max_retries ∧
      should_continue (runCycles cfg orc (startState true code) 2) = "end") := by
  constructor
  · intro cfg s hres hpf hat hcode
    rw [evaluate_node_stuck cfg s hres hpf hat hcode]
    exact ⟨rfl, rfl⟩
  · intro cfg orc code hmax h0p h0e h1p h1e hf0 hf1
    have hs0 : startState true code = ⟨code, code, 0, 0, [], "reviewing", none⟩ := rfl
    -- cycle 0 : fix
    have hfix0 : fixState cfg orc (startState true code) 0 =
        ⟨code, code, 0, 1, [], "fixing", none⟩ := by
      unfold fixState
      rw [show runCycles cfg orc (startState true code) 0 = startState true code from rfl,
        h0p, h0e, hs0]
      rw [fix_node_none_none cfg _ (by dsimp only; omega)]
    -- cycle 0 : execute
    have hres0 : resultSuccess (execState cfg orc (startState true code) 0) = false := by
      unfold execState
      rw [hfix0, resultSuccess_execute]
      exact hf0
    have h0a : (execState cfg orc (startState true code) 0).attempt = 0 := by
      unfold execState
      rw [hfix0]
      rfl
    have h0pf : (execState cfg orc (startState true code) 0).parse_failures = 1 := by
      unfold execState
      rw [hfix0]
      rfl
    have h0cur : (execState cfg orc (startState true code) 0).current_code = code := by
      unfold execState
      rw [hfix0]
      rfl
    have h0orig : (execState cfg orc (startState true code) 0).original_code = code := by
      unfold execState
      rw [hfix0]
      rfl
    -- cycle 0 : evaluate
    have heval0 : evalState cfg orc (startState true code) 0 =
        { execState cfg orc (startState true code) 0 with
          attempt := (execState cfg orc (startState true code) 0).attempt + 1,
          status := "fixing" } := by
      unfold evalState
      apply evaluate_node_retry
      · exact hres0
      · rintro ⟨-, hgt, -⟩
        rw [h0a] at hgt
        omega
      · rw [h0a]
        omega
    have hrun1 : runCycles cfg orc (startState true code) 1 =
        evalState cfg orc (startState true code) 0 := by
      apply runCycles_succ_eval
      rw [show runCycles cfg orc (startState true code) 0 = startState true code from rfl]
      apply should_continue_ne_end
      · rw [hs0]
        show ("reviewing" : String) ≠ "success"
        decide
      · rw [hs0]
        show ("reviewing" : String) ≠ "failed"
        decide
    have h1at : (runCycles cfg orc (startState true code) 1).attempt = 1 := by
      rw [hrun1, heval0]
      show (execState cfg orc (startState true code) 0).attempt + 1 = 1
      rw [h0a]
    have h1pf : (runCycles cfg orc (startState true code) 1).parse_failures = 1 := by
      rw [hrun1, heval0]
      show (execState cfg orc (startState true code) 0).parse_failures = 1
      exact h0pf
    have h1cur : (runCycles cfg orc (startState true code) 1).current_code = code := by
      rw [hrun1, heval0]
      exact h0cur
    have h1orig : (runCycles cfg orc (startState true code) 1).original_code = code := by
      rw [hrun1, heval0]
      exact h0orig
    have h1st : (runCycles cfg orc (startState true code) 1).status = "fixing" := by
      rw [hrun1, heval0]
    -- cycle 1 : fix
    have hfix1 : fixState cfg orc (startState true code) 1 =
        { runCycles cfg orc (startState true code) 1 with
          parse_failures := 2, status := "fixing" } := by
      unfold fixState
      rw [h1p, h1e]
      rw [fix_node_none_none cfg _ (by rw [h1pf]; omega)]
      rw [h1pf]
    -- cycle 1 : execute
    have hres1 : resultSuccess (execState cfg orc (startState true code) 1) = false := by
      unfold execState
      rw [resultSuccess_execute, hfix1]
      show (execute_code_safely cfg.blocked_imports cfg.execution_timeout
        ⟨(runCycles cfg orc (startState true code) 1).current_code,
          (orc 1).astCurrent⟩ (orc 1).run).1.success = false
      rw [h1cur]
      exact hf1
    have h2a : (execState cfg orc (startState true code) 1).attempt = 1 := by
      unfold execState
      rw [execute_node_attempt, hfix1]
      show (runCycles cfg orc (startState true code) 1).attempt = 1
      exact h1at
    have h2pf : (execState cfg orc (startState true code) 1).parse_failures = 2 := by
      unfold execState
      rw [execute_node_pf, hfix1]
    have h2cur : (execState cfg orc (startState true code) 1).current_code = code := by
      unfold execState
      rw [execute_node_current, hfix1]
      exact h1cur
    have h2orig : (execState cfg orc (startState true code) 1).original_code = code := by
      unfold execState
      rw [execute_node_original, hfix1]
      exact h1orig
    -- cycle 1 : evaluate (second stuck-loop guard fires)
    have heval1 : evalState cfg orc (startState true code) 1 =
        { execState cfg orc (startState true code) 1 with
          attempt := (execState cfg orc (startState true code) 1).attempt + 1,
          status := "failed" } := by
      unfold evalState
      apply evaluate_node_stuck
      · exact hres1
      · rw [h2pf]; omega
      · rw [h2a]; omega
      · rw [h2cur, h2orig]
    have hrun2 : runCycles cfg orc (startState true code) 2 =
        evalState cfg orc (startState true code) 1 := by
      apply runCycles_succ_eval
      apply should_continue_ne_end
      · rw [h1st]; decide
      · rw [h1st]; decide
    have hfst : (runCycles cfg orc (startState true code) 2).status = "failed" := by
      rw [hrun2, heval1]
    have hfat : (runCycles cfg orc (startState true code) 2).attempt = 2 := by
      rw [hrun2, heval1]
      show (execState cfg orc (startState true code) 1).attempt + 1 = 2
      rw [h2a]
    refine ⟨hfst, hfat, ?_, should_continue_end _ (Or.inr hfst)⟩
    rw [hfat]
    omega

/-- Oracle of a fully stuck run: unparseable fix responses, nothing
salvageable, every execution fails. -/
def divStuckOracle : Nat → CycleOracle :=
  fun _ => ⟨none, none, some [.other], zeroDivOutcome⟩

/-- Witness for C8: the scenario hypotheses hold at the default
configuration with code `x = 1/0` and a stuck oracle, and the run halts
in `failed` at attempt 2 < 3. -/
theorem c8_witness :
    2 < defaultConfig.max_retries ∧
    ((runCycles defaultConfig divStuckOracle (startState true "x = 1/0") 2).status = "failed" ∧
    (runCycles defaultConfig divStuckOracle (startState true "x = 1/0") 2).attempt = 2 ∧
    (runCycles defaultConfig divStuckOracle (startState true "x = 1/0") 2).attempt <
      defaultConfig.max_retries ∧
    should_continue (runCycles defaultConfig divStuckOracle
      (startState true "x = 1/0") 2) = "end") :=
  ⟨by decide, c8_stuck_code_unchanged.2 defaultConfig divStuckOracle "x = 1/0"
    (by decide) rfl rfl rfl rfl (by decide) (by decide)⟩

end CodeReviewAgent
